import Mathlib

/-!
Shallow embedding of two darktable source files and proofs about them:

* `src/imageio/imageio_im.c` — the ImageMagick-based image loader
  (`_supported_image`, `dt_imageio_open_im`);
* `src/libs/tools/lighttable.c` — the lighttable layout tool
  (`_lib_lighttable_update_btn`, `_lib_lighttable_set_layout`,
  button-release and key-accelerator handlers, the zoom proxy and the
  scripting accessors `layout_cb` / `zoom_level_cb`).

External systems (the ImageMagick library, GTK widgets, the view manager,
the configuration store and the EXIF reader, whose sources are not part of
the excerpt) are modelled as oracles or as explicit fields of the state:
the loader consults a `MagickEnv` record describing what each library call
would answer, and the lighttable code acts on an `LTState` record holding
the module data, the mirrored view-manager fields, the configuration keys
the code reads and writes, and the displayed widget state.  Machine floats
are modelled as rationals: the CMYK fixup is pure arithmetic on exported
channel values.  All definitions follow the C control flow statement by
statement.
-/

namespace ImageIoIm

/-- Return codes of the loaders (`dt_imageio_retval_t`). -/
inductive dt_imageio_retval_t where
  | DT_IMAGEIO_OK
  | DT_IMAGEIO_FILE_NOT_FOUND
  | DT_IMAGEIO_CACHE_FULL
  | DT_IMAGEIO_LOAD_FAILED
deriving DecidableEq, Repr

/-- The ImageMagick colorspace answers the loader distinguishes. -/
inductive ColorspaceType where
  | UndefinedColorspace
  | RGBColorspace
  | sRGBColorspace
  | GRAYColorspace
  | CMYColorspace
  | CMYKColorspace
deriving DecidableEq, Repr

/-- Pixel data types of `dt_image_t.buf_dsc` (only the one the loader writes,
plus a distinct default). -/
inductive dt_image_datatype where
  | TYPE_UNKNOWN
  | TYPE_FLOAT
deriving DecidableEq, Repr

/-- Buffer colorspace tags (`dt_iop_colorspace_type_t`), restricted to the
values this loader can leave behind or start from. -/
inductive dt_iop_colorspace_type_t where
  | IOP_CS_NONE
  | IOP_CS_RAW
  | IOP_CS_RGB
deriving DecidableEq, Repr

/-- Loader tags (`dt_image_loader_t`), restricted likewise. -/
inductive dt_image_loader_t where
  | LOADER_UNKNOWN
  | LOADER_IM
deriving DecidableEq, Repr

/-- The fields of `dt_image_t` that `dt_imageio_open_im` reads or writes.
The bit flags `DT_IMAGE_RAW`, `DT_IMAGE_S_RAW`, `DT_IMAGE_HDR` and
`DT_IMAGE_LDR` are separate booleans, matching the `&= ~X` / `|= Y`
bit operations of the C code.  The embedded ICC profile is a byte list. -/
structure dt_image_t where
  width : Nat
  height : Nat
  buf_dsc_channels : Nat
  buf_dsc_datatype : dt_image_datatype
  buf_dsc_cst : dt_iop_colorspace_type_t
  buf_dsc_filters : Nat
  flag_raw : Bool
  flag_s_raw : Bool
  flag_hdr : Bool
  flag_ldr : Bool
  loader : dt_image_loader_t
  profile : Option (List Nat)
  profile_size : Nat
  exif_inited : Bool
deriving DecidableEq, Repr

/-- Oracle for every external call `dt_imageio_open_im` makes: what
`NewMagickWand`, `MagickReadImage`, the dimension/colorspace queries,
`dt_mipmap_cache_alloc`, `MagickExportImagePixels`,
`MagickGetImageProfile` and `g_try_malloc0` would answer on this run.
`export_pixels` gives, for the colormap string the loader passes, the
channel value the export would place at each buffer position. -/
structure MagickEnv where
  have_imagemagick7 : Bool
  wand_ok : Bool
  read_ok : Bool
  image_width : Nat
  image_height : Nat
  alloc_ok : Bool
  image_colorspace : ColorspaceType
  export_ok : Bool
  export_pixels : String → Nat → ℚ
  icc_profile : Option (List Nat)
  icm_profile : Option (List Nat)
  malloc_ok : Bool

/-- The loader steps recorded by the model: library and buffer operations in
the order the C code performs them.  `EvOpen` stands for the
`NewMagickWand` / `MagickReadImage` pair, `EvCopyProfile` for the embedded
profile copy block (which runs whenever profile data was obtained; its
internal allocation may still fail, see the C5 theorems). -/
inductive ImEvent where
  | EvOpen
  | EvGetWidth
  | EvGetHeight
  | EvAlloc
  | EvGetColorspace
  | EvExport
  | EvCmykFixup
  | EvCopyProfile
deriving DecidableEq, Repr

/-- Result of a run of `dt_imageio_open_im`: the return code, the image
record after the call, the mipmap buffer when one was produced, and the
recorded loader steps. -/
structure im_open_result where
  retval : dt_imageio_retval_t
  img : dt_image_t
  mipbuf : Option (Nat → ℚ)
  trace : List ImEvent

/-- The extension whitelist of `_supported_image` (`jxl` and `webp` are in
the base list; `qoi` is added separately under ImageMagick 7). -/
def extensions_whitelist : List String :=
  ["tiff", "tif",
   "pam", "pbm", "pgm", "ppm", "pnm",
   "jpc", "jp2", "jpf", "jpx",
   "bmp", "miff", "dcm", "jng", "mng", "gif",
   "fits", "fit", "fts",
   "cin", "dpx",
   "jxl",
   "webp"]

/-- ASCII lower-casing, as `g_ascii_strncasecmp` folds case. -/
def g_ascii_tolower (c : Char) : Char :=
  if 'A' ≤ c ∧ c ≤ 'Z' then Char.ofNat (c.toNat + 32) else c

/-- `g_ascii_strncasecmp(a, b, n) == 0` on NUL-terminated strings: the first
`n` characters agree case-insensitively; a string that ends before `n`
characters and before any mismatch agrees only with one that ends at the
same place (the NUL comparison), which `List.take` reproduces. -/
def g_ascii_strncasecmp_eq (a b : List Char) (n : Nat) : Bool :=
  ((a.take n).map g_ascii_tolower) == ((b.take n).map g_ascii_tolower)

/-- The characters after the last '.' of a filename, `none` when there is no
'.' (the `g_strrstr(filename, ".")` test, then `ext++`). -/
def ext_after_last_dot : List Char → Option (List Char)
  | [] => none
  | c :: rest =>
    match ext_after_last_dot rest with
    | some e => some e
    | none => if c = '.' then some rest else none

/-- `_supported_image` of `imageio_im.c`: the filename's last extension is
compared against each whitelist entry with
`g_ascii_strncasecmp(ext, *i, strlen(*i))`, that is, the entry must be a
case-insensitive starting segment of the extension; under ImageMagick 7 the
same comparison against `"qoi"` is tried as well. -/
def _supported_image (have_imagemagick7 : Bool) (filename : String) : Bool :=
  match ext_after_last_dot filename.toList with
  | none => false
  | some ext =>
    extensions_whitelist.any
        (fun w => g_ascii_strncasecmp_eq ext w.toList w.length)
      || (have_imagemagick7 && g_ascii_strncasecmp_eq ext ['q', 'o', 'i'] 3)

/-- The matching criterion as claim C2 words it, for comparison with the
code's `_supported_image`: the extension itself equals, case-insensitively,
a starting segment of one of the whitelisted extensions. -/
def claimC2_ext_matches (have_imagemagick7 : Bool) (filename : String) : Bool :=
  match ext_after_last_dot filename.toList with
  | none => false
  | some ext =>
    (extensions_whitelist
        ++ (if have_imagemagick7 then ["qoi"] else [])).any fun w =>
      (List.range (w.length + 1)).any fun k =>
        (ext.map g_ascii_tolower) == ((w.toList.take k).map g_ascii_tolower)

/-- Modelled from the spec: `dt_exif_read` (common/exif, not part of the
excerpt) fills the image's EXIF metadata; the only field of our image record
it concerns is `exif_inited`, which it sets.  None of the fields the loader
later writes depend on it. -/
def dt_exif_read (img : dt_image_t) : dt_image_t :=
  { img with exif_inited := true }

/-- One iteration of the CMYK fixup loop body on pixel `index`: `black` is
read from channel 3, then channels 0, 1 and 2 are overwritten in turn with
`(1 - black) * (1 - value)`. -/
def cmyk_fixup_pixel (mipbuf : Nat → ℚ) (index : Nat) : Nat → ℚ :=
  let black := mipbuf (index + 3)
  let b0 := Function.update mipbuf index ((1 - black) * (1 - mipbuf index))
  let b1 := Function.update b0 (index + 1) ((1 - black) * (1 - b0 (index + 1)))
  Function.update b1 (index + 2) ((1 - black) * (1 - b1 (index + 2)))

/-- The CMYK fixup loop: `for(index = 0; index < bound; index += 4)` with the
body `cmyk_fixup_pixel`, where `bound = width * height * 4`. -/
def cmyk_fixup_loop (mipbuf : Nat → ℚ) (index bound : Nat) : Nat → ℚ :=
  if index < bound then
    cmyk_fixup_loop (cmyk_fixup_pixel mipbuf index) (index + 4) bound
  else mipbuf
termination_by bound - index
decreasing_by omega

/-- `dt_imageio_open_im`, statement by statement.  The unsupported-filename
check returns before anything else happens; `dt_exif_read` runs when EXIF
data was not yet read; each external call consults the oracle; on the CMYK
colorspaces the export colormap is `"CMYK"` and the fixup loop runs,
otherwise the colormap is `"RGBP"` and the exported data stays as exported;
the profile block tries `"icc"` then `"icm"`, and on obtained data assigns
`img->profile = g_try_malloc0(len)` (so a failed allocation overwrites the
field with null) and copies bytes and length only when that allocation
succeeded; the success epilogue sets the buffer descriptor, clears the RAW,
S_RAW and HDR flags, sets LDR and the loader tag. -/
def dt_imageio_open_im (env : MagickEnv) (img0 : dt_image_t)
    (filename : String) : im_open_result :=
  if ! _supported_image env.have_imagemagick7 filename then
    ⟨.DT_IMAGEIO_LOAD_FAILED, img0, none, []⟩
  else
    let img := if ! img0.exif_inited then dt_exif_read img0 else img0
    if ! env.wand_ok then
      ⟨.DT_IMAGEIO_LOAD_FAILED, img, none, [.EvOpen]⟩
    else if ! env.read_ok then
      ⟨.DT_IMAGEIO_FILE_NOT_FOUND, img, none, [.EvOpen]⟩
    else
      let img := { img with
        width := env.image_width, height := env.image_height,
        buf_dsc_channels := 4, buf_dsc_datatype := .TYPE_FLOAT }
      if ! env.alloc_ok then
        ⟨.DT_IMAGEIO_CACHE_FULL, img, none,
         [.EvOpen, .EvGetWidth, .EvGetHeight, .EvAlloc]⟩
      else
        let colorspace := env.image_colorspace
        let cmyk := colorspace = ColorspaceType.CMYColorspace ∨
                    colorspace = ColorspaceType.CMYKColorspace
        let colormap := if cmyk then "CMYK" else "RGBP"
        let exported := env.export_pixels colormap
        if ! env.export_ok then
          ⟨.DT_IMAGEIO_LOAD_FAILED, img, none,
           [.EvOpen, .EvGetWidth, .EvGetHeight, .EvAlloc,
            .EvGetColorspace, .EvExport]⟩
        else
          let mipbuf :=
            if cmyk then
              cmyk_fixup_loop exported 0 (img.width * img.height * 4)
            else exported
          let profile_data :=
            match env.icc_profile with
            | some d => some d
            | none => env.icm_profile
          let img :=
            match profile_data with
            | some bytes =>
              if env.malloc_ok then
                { img with profile := some bytes,
                           profile_size := bytes.length }
              else
                { img with profile := none }
            | none => img
          let img := { img with
            buf_dsc_cst := .IOP_CS_RGB, buf_dsc_filters := 0,
            flag_raw := false, flag_s_raw := false, flag_hdr := false,
            flag_ldr := true, loader := .LOADER_IM }
          ⟨.DT_IMAGEIO_OK, img, some mipbuf,
           [.EvOpen, .EvGetWidth, .EvGetHeight, .EvAlloc,
            .EvGetColorspace, .EvExport]
             ++ (if cmyk then [.EvCmykFixup] else [])
             ++ (if profile_data.isSome then [.EvCopyProfile] else [])⟩

/-- A concrete image record used by the witnesses and counterexamples. -/
def imgInit : dt_image_t :=
  { width := 0, height := 0,
    buf_dsc_channels := 0, buf_dsc_datatype := .TYPE_UNKNOWN,
    buf_dsc_cst := .IOP_CS_NONE, buf_dsc_filters := 5,
    flag_raw := true, flag_s_raw := false, flag_hdr := false,
    flag_ldr := false, loader := .LOADER_UNKNOWN,
    profile := none, profile_size := 0, exif_inited := true }

/-- A concrete oracle on which every external call succeeds. -/
def envAllOk : MagickEnv :=
  { have_imagemagick7 := true, wand_ok := true, read_ok := true,
    image_width := 1, image_height := 1, alloc_ok := true,
    image_colorspace := .sRGBColorspace, export_ok := true,
    export_pixels := fun _ _ => 0,
    icc_profile := none, icm_profile := none, malloc_ok := true }

/-- A concrete oracle reporting a CMYK image of one pixel. -/
def envCmyk : MagickEnv :=
  { envAllOk with
    image_colorspace := .CMYKColorspace,
    export_pixels := fun _ i => (i : ℚ) / 10 }

/-- A concrete oracle with an embedded "icc" profile whose copy allocation
fails (`g_try_malloc0` returns null). -/
def envProfileMallocFail : MagickEnv :=
  { envAllOk with icc_profile := some [7], malloc_ok := false }

/-- A concrete oracle with only an "icm" profile, allocation succeeding. -/
def envIcmProfile : MagickEnv :=
  { envAllOk with icm_profile := some [3, 4] }

/-- A concrete image record that already holds an old profile. -/
def imgOldProfile : dt_image_t :=
  { imgInit with profile := some [9], profile_size := 1 }

end ImageIoIm

namespace Lighttable

/-- The lighttable layouts (`dt_lighttable_layout_t`), in the order the
scripting binding registers them. -/
inductive dt_lighttable_layout_t where
  | DT_LIGHTTABLE_LAYOUT_FIRST
  | DT_LIGHTTABLE_LAYOUT_ZOOMABLE
  | DT_LIGHTTABLE_LAYOUT_FILEMANAGER
  | DT_LIGHTTABLE_LAYOUT_CULLING
  | DT_LIGHTTABLE_LAYOUT_CULLING_DYNAMIC
  | DT_LIGHTTABLE_LAYOUT_PREVIEW
deriving DecidableEq, Repr

/-- Culling restriction modes (`dt_lighttable_culling_restriction_t`). -/
inductive dt_lighttable_culling_restriction_t where
  | DT_LIGHTTABLE_CULLING_RESTRICTION_AUTO
  | DT_LIGHTTABLE_CULLING_RESTRICTION_SELECTION
  | DT_LIGHTTABLE_CULLING_RESTRICTION_COLLECTION
deriving DecidableEq, Repr

/-- The five layout toggle buttons held in `d->layout_box`, in the order
`gui_init` packs them. -/
inductive LTButton where
  | layout_filemanager
  | layout_zoomable
  | layout_culling_fix
  | layout_culling_dynamic
  | layout_preview
deriving DecidableEq, Repr

/-- The state the lighttable tool code acts on: the module data
(`dt_lib_tool_lighttable_t`), the view-manager fields it mirrors, the
configuration keys it reads and writes, and the displayed widget state
(toggle activity, visibility, sensitivity, the zoom spin value and the
tooltips the code assigns). -/
structure LTState where
  d_layout : dt_lighttable_layout_t
  d_base_layout : dt_lighttable_layout_t
  d_current_zoom : Int
  d_fullpreview_focus : Bool
  d_culling_init_restriction : dt_lighttable_culling_restriction_t
  vm_fullpreview : Bool
  vm_culling_restricted : dt_lighttable_culling_restriction_t
  conf_layout : dt_lighttable_layout_t
  conf_base_layout : dt_lighttable_layout_t
  conf_culling_num_images : Int
  conf_images_in_row : Int
  btn_filemanager_active : Bool
  btn_zoomable_active : Bool
  btn_culling_fix_active : Bool
  btn_culling_dynamic_active : Bool
  btn_preview_active : Bool
  btn_restricted_active : Bool
  restricted_visible : Bool
  zoom_sensitive : Bool
  spin_value : Int
  tooltip_preview : String
  tooltip_culling_fix : String
  tooltip_culling_dynamic : String
  tooltip_restricted : String
deriving DecidableEq, Repr

/-- Inputs the handlers read from outside the module:
`dt_collection_get_selected_count`. -/
structure LTEnv where
  selected_count : Int
deriving DecidableEq, Repr

/-- Modelled from the spec: `dt_view_lighttable_preview_state` (view manager,
not part of the excerpt) reports the application-wide full-preview flag the
tool mirrors. -/
def dt_view_lighttable_preview_state (s : LTState) : Bool :=
  s.vm_fullpreview

/-- Modelled from the spec: `dt_view_lighttable_set_preview_state` (view
manager, not part of the excerpt) stores the full-preview flag; the further
arguments of the C call (sticky, focus, restriction) steer view-manager
behaviour outside this module's state. -/
def dt_view_lighttable_set_preview_state (s : LTState) (state : Bool) :
    LTState :=
  { s with vm_fullpreview := state }

/-- Modelled from the spec: the view manager's culling-restriction field,
read side. -/
def dt_view_lighttable_culling_restricted_state (s : LTState) :
    dt_lighttable_culling_restriction_t :=
  s.vm_culling_restricted

/-- Modelled from the spec: the view manager's culling-restriction field,
write side. -/
def dt_view_lighttable_set_culling_restricted_state (s : LTState)
    (r : dt_lighttable_culling_restriction_t) : LTState :=
  { s with vm_culling_restricted := r }

/-- `_lib_lighttable_update_btn`: choose the button that should be active
(preview on full preview, else the button of the current layout, filemanager
by default), set each of the five toggle buttons active exactly when it is
the chosen one, assign the tooltips, set the zoom spin sensitivity and
value, and configure the culling-restricted button. -/
def _lib_lighttable_update_btn (s : LTState) : LTState :=
  let fullpreview := dt_view_lighttable_preview_state s
  let active : LTButton :=
    if fullpreview then .layout_preview
    else if s.d_layout = .DT_LIGHTTABLE_LAYOUT_CULLING_DYNAMIC then
      .layout_culling_dynamic
    else if s.d_layout = .DT_LIGHTTABLE_LAYOUT_CULLING then
      .layout_culling_fix
    else if s.d_layout = .DT_LIGHTTABLE_LAYOUT_ZOOMABLE then
      .layout_zoomable
    else .layout_filemanager
  let s := { s with
    btn_filemanager_active := active == LTButton.layout_filemanager,
    btn_zoomable_active := active == LTButton.layout_zoomable,
    btn_culling_fix_active := active == LTButton.layout_culling_fix,
    btn_culling_dynamic_active := active == LTButton.layout_culling_dynamic,
    btn_preview_active := active == LTButton.layout_preview }
  let s := { s with
    tooltip_preview :=
      if fullpreview then "click to exit from full preview layout."
      else "click to enter full preview layout.",
    tooltip_culling_fix :=
      if s.d_layout ≠ .DT_LIGHTTABLE_LAYOUT_CULLING ∨ fullpreview = true then
        "click to enter culling layout in fixed mode."
      else "click to exit culling layout.",
    tooltip_culling_dynamic :=
      if s.d_layout ≠ .DT_LIGHTTABLE_LAYOUT_CULLING_DYNAMIC ∨
          fullpreview = true then
        "click to enter culling layout in dynamic mode."
      else "click to exit culling layout.",
    zoom_sensitive :=
      (s.d_layout != .DT_LIGHTTABLE_LAYOUT_CULLING_DYNAMIC) && !fullpreview,
    spin_value := s.d_current_zoom }
  if s.d_layout = .DT_LIGHTTABLE_LAYOUT_CULLING ∨ fullpreview = true then
    if dt_view_lighttable_culling_restricted_state s =
        .DT_LIGHTTABLE_CULLING_RESTRICTION_SELECTION then
      { s with
        tooltip_restricted :=
          "click to allow browsing all images from the collection.",
        btn_restricted_active := true,
        restricted_visible := true }
    else
      { s with
        tooltip_restricted := "click to limit browsing to the selection.",
        btn_restricted_active := false,
        restricted_visible := true }
  else
    { s with restricted_visible := false, btn_restricted_active := false }

/-- `_lib_lighttable_set_layout`: full preview is handled first (the
view-manager flag is toggled when it disagrees with `layout == PREVIEW`);
for `PREVIEW` the previous values are kept and only the buttons are updated;
otherwise `d->layout` is assigned and, when the persisted layout differs,
the current zoom is re-read from the configuration (with the selected-count
rule for dynamic culling), the layout is persisted, and for the filemanager
and zoomable layouts the base layout is assigned and persisted as well. -/
def _lib_lighttable_set_layout (s : LTState) (env : LTEnv)
    (layout : dt_lighttable_layout_t) : LTState :=
  let s :=
    if ((layout == .DT_LIGHTTABLE_LAYOUT_PREVIEW) ^^
        dt_view_lighttable_preview_state s) then
      dt_view_lighttable_set_preview_state s
        (layout == .DT_LIGHTTABLE_LAYOUT_PREVIEW)
    else s
  if layout = .DT_LIGHTTABLE_LAYOUT_PREVIEW then
    _lib_lighttable_update_btn s
  else
    let current_layout := s.conf_layout
    let s := { s with d_layout := layout }
    if current_layout ≠ layout then
      let s :=
        if s.d_layout = .DT_LIGHTTABLE_LAYOUT_CULLING_DYNAMIC then
          let z := max 1 (min 30 env.selected_count)
          let z := if z = 1 then s.conf_culling_num_images else z
          { s with d_current_zoom := z }
        else if s.d_layout = .DT_LIGHTTABLE_LAYOUT_CULLING then
          { s with d_current_zoom := s.conf_culling_num_images }
        else
          { s with d_current_zoom := s.conf_images_in_row }
      let s := { s with conf_layout := layout }
      let s :=
        if layout = .DT_LIGHTTABLE_LAYOUT_FILEMANAGER ∨
            layout = .DT_LIGHTTABLE_LAYOUT_ZOOMABLE then
          { s with d_base_layout := layout, conf_base_layout := layout }
        else s
      _lib_lighttable_update_btn s
    else
      _lib_lighttable_update_btn s

/-- The toggle state of one of the five layout buttons (read before GTK
changes it, as the C comment notes). -/
def ltButtonActive (s : LTState) (w : LTButton) : Bool :=
  match w with
  | .layout_filemanager => s.btn_filemanager_active
  | .layout_zoomable => s.btn_zoomable_active
  | .layout_culling_fix => s.btn_culling_fix_active
  | .layout_culling_dynamic => s.btn_culling_dynamic_active
  | .layout_preview => s.btn_preview_active

/-- `_lib_lighttable_layout_btn_release`: on an inactive button, activate
its layout (storing the focus flag for preview and the initial restriction
for fixed culling, both from the Ctrl modifier); on an active button,
deactivate towards `d->layout` (preview) or `d->base_layout` (culling),
while the filemanager and zoomable buttons cannot be exited. -/
def _lib_lighttable_layout_btn_release (s : LTState) (env : LTEnv)
    (w : LTButton) (ctrl : Bool) : LTState :=
  let active := ltButtonActive s w
  if ! active then
    match w with
    | .layout_preview =>
      let s := { s with d_fullpreview_focus := ctrl }
      _lib_lighttable_set_layout s env .DT_LIGHTTABLE_LAYOUT_PREVIEW
    | .layout_culling_fix =>
      let s := { s with d_culling_init_restriction :=
        if ctrl then .DT_LIGHTTABLE_CULLING_RESTRICTION_COLLECTION
        else .DT_LIGHTTABLE_CULLING_RESTRICTION_AUTO }
      _lib_lighttable_set_layout s env .DT_LIGHTTABLE_LAYOUT_CULLING
    | .layout_culling_dynamic =>
      _lib_lighttable_set_layout s env .DT_LIGHTTABLE_LAYOUT_CULLING_DYNAMIC
    | .layout_zoomable =>
      _lib_lighttable_set_layout s env .DT_LIGHTTABLE_LAYOUT_ZOOMABLE
    | .layout_filemanager =>
      _lib_lighttable_set_layout s env .DT_LIGHTTABLE_LAYOUT_FILEMANAGER
  else
    match w with
    | .layout_preview => _lib_lighttable_set_layout s env s.d_layout
    | .layout_culling_dynamic =>
      _lib_lighttable_set_layout s env s.d_base_layout
    | .layout_culling_fix =>
      _lib_lighttable_set_layout s env s.d_base_layout
    | _ => s

/-- `_lib_lighttable_restricted_btn_release`: flip the view-manager culling
restriction away from the button's pre-change state and refresh the
buttons. -/
def _lib_lighttable_restricted_btn_release (s : LTState) : LTState :=
  let restriction :=
    if s.btn_restricted_active then
      dt_lighttable_culling_restriction_t.DT_LIGHTTABLE_CULLING_RESTRICTION_COLLECTION
    else
      dt_lighttable_culling_restriction_t.DT_LIGHTTABLE_CULLING_RESTRICTION_SELECTION
  let s := dt_view_lighttable_set_culling_restricted_state s restriction
  _lib_lighttable_update_btn s

/-- `_lib_lighttable_key_accel_toggle_filemanager`. -/
def _lib_lighttable_key_accel_toggle_filemanager (s : LTState) (env : LTEnv) :
    LTState :=
  _lib_lighttable_set_layout s env .DT_LIGHTTABLE_LAYOUT_FILEMANAGER

/-- `_lib_lighttable_key_accel_toggle_zoomable`. -/
def _lib_lighttable_key_accel_toggle_zoomable (s : LTState) (env : LTEnv) :
    LTState :=
  _lib_lighttable_set_layout s env .DT_LIGHTTABLE_LAYOUT_ZOOMABLE

/-- `_lib_lighttable_key_accel_toggle_culling_dynamic_mode`: enter dynamic
culling unless already in a culling layout, else return to the base
layout. -/
def _lib_lighttable_key_accel_toggle_culling_dynamic_mode (s : LTState)
    (env : LTEnv) : LTState :=
  if s.d_layout ≠ .DT_LIGHTTABLE_LAYOUT_CULLING ∧
      s.d_layout ≠ .DT_LIGHTTABLE_LAYOUT_CULLING_DYNAMIC then
    _lib_lighttable_set_layout s env .DT_LIGHTTABLE_LAYOUT_CULLING_DYNAMIC
  else
    _lib_lighttable_set_layout s env s.d_base_layout

/-- `_lib_lighttable_key_accel_toggle_culling_zoom_mode`: switch between the
fixed and dynamic culling layouts, a no-op elsewhere. -/
def _lib_lighttable_key_accel_toggle_culling_zoom_mode (s : LTState)
    (env : LTEnv) : LTState :=
  if s.d_layout = .DT_LIGHTTABLE_LAYOUT_CULLING then
    _lib_lighttable_set_layout s env .DT_LIGHTTABLE_LAYOUT_CULLING_DYNAMIC
  else if s.d_layout = .DT_LIGHTTABLE_LAYOUT_CULLING_DYNAMIC then
    let s := { s with d_culling_init_restriction :=
      .DT_LIGHTTABLE_CULLING_RESTRICTION_AUTO }
    _lib_lighttable_set_layout s env .DT_LIGHTTABLE_LAYOUT_CULLING
  else s

/-- `_lib_lighttable_key_accel_toggle_restricted_mode`: in fixed culling or
full preview, flip the restriction via the restricted-button handler. -/
def _lib_lighttable_key_accel_toggle_restricted_mode (s : LTState) : LTState :=
  if s.d_layout = .DT_LIGHTTABLE_LAYOUT_CULLING ∨
      dt_view_lighttable_preview_state s = true then
    _lib_lighttable_restricted_btn_release s
  else s

/-- `_lib_lighttable_key_accel_exit_layout`: leave full preview towards
`d->layout`, else leave a non-base layout towards `d->base_layout`. -/
def _lib_lighttable_key_accel_exit_layout (s : LTState) (env : LTEnv) :
    LTState :=
  if dt_view_lighttable_preview_state s = true then
    _lib_lighttable_set_layout s env s.d_layout
  else if s.d_layout ≠ s.d_base_layout then
    _lib_lighttable_set_layout s env s.d_base_layout
  else s

/-- `_lib_lighttable_get_layout` (the module data is present after
`gui_init`). -/
def _lib_lighttable_get_layout (s : LTState) : dt_lighttable_layout_t :=
  s.d_layout

/-- `_lib_lighttable_set_zoom`: write the spin button's value, then
`d->current_zoom` (`gtk_spin_button_set_value` is modelled as the plain
widget-value store; the `value-changed` signal dispatch belongs to GTK). -/
def _lib_lighttable_set_zoom (s : LTState) (zoom : Int) : LTState :=
  let s := { s with spin_value := zoom }
  { s with d_current_zoom := zoom }

/-- `_lib_lighttable_get_zoom`. -/
def _lib_lighttable_get_zoom (s : LTState) : Int :=
  s.d_current_zoom

/-- `_set_zoom`: persist the zoom under the configuration key of the current
layout family. -/
def _set_zoom (s : LTState) (zoom : Int) : LTState :=
  if s.d_layout = .DT_LIGHTTABLE_LAYOUT_CULLING then
    { s with conf_culling_num_images := zoom }
  else if s.d_layout = .DT_LIGHTTABLE_LAYOUT_FILEMANAGER ∨
      s.d_layout = .DT_LIGHTTABLE_LAYOUT_ZOOMABLE then
    { s with conf_images_in_row := zoom }
  else s

/-- `_lib_lighttable_zoom_slider_changed`: read the spin value, persist it,
store it as the current zoom. -/
def _lib_lighttable_zoom_slider_changed (s : LTState) : LTState :=
  let i := s.spin_value
  let s := _set_zoom s i
  { s with d_current_zoom := i }

/-- `layout_cb`, the scripting layout accessor: read the layout first; with
an argument run the setter; push the value read at the start. -/
def layout_cb (s : LTState) (env : LTEnv)
    (arg : Option dt_lighttable_layout_t) : dt_lighttable_layout_t × LTState :=
  let tmp := _lib_lighttable_get_layout s
  match arg with
  | some value => (tmp, _lib_lighttable_set_layout s env value)
  | none => (tmp, s)

/-- `zoom_level_cb`, the scripting zoom accessor: read the zoom first; with
an argument run the setter; push the value read at the start. -/
def zoom_level_cb (s : LTState) (arg : Option Int) : Int × LTState :=
  let tmp := _lib_lighttable_get_zoom s
  match arg with
  | some value => (tmp, _lib_lighttable_set_zoom s value)
  | none => (tmp, s)

/-- The operations of claim C9: layout changes through the setter, the two
button-release handlers and the key accelerators. -/
inductive LTOp where
  | op_set_layout (layout : dt_lighttable_layout_t)
  | op_layout_btn_release (w : LTButton) (ctrl : Bool)
  | op_restricted_btn_release
  | op_accel_toggle_filemanager
  | op_accel_toggle_zoomable
  | op_accel_toggle_culling_dynamic_mode
  | op_accel_toggle_culling_zoom_mode
  | op_accel_toggle_restricted_mode
  | op_accel_exit_layout
deriving DecidableEq, Repr

/-- One operation applied to the state, with its external inputs. -/
def LTStep (s : LTState) : LTEnv × LTOp → LTState
  | (env, .op_set_layout l) => _lib_lighttable_set_layout s env l
  | (env, .op_layout_btn_release w ctrl) =>
    _lib_lighttable_layout_btn_release s env w ctrl
  | (_, .op_restricted_btn_release) => _lib_lighttable_restricted_btn_release s
  | (env, .op_accel_toggle_filemanager) =>
    _lib_lighttable_key_accel_toggle_filemanager s env
  | (env, .op_accel_toggle_zoomable) =>
    _lib_lighttable_key_accel_toggle_zoomable s env
  | (env, .op_accel_toggle_culling_dynamic_mode) =>
    _lib_lighttable_key_accel_toggle_culling_dynamic_mode s env
  | (env, .op_accel_toggle_culling_zoom_mode) =>
    _lib_lighttable_key_accel_toggle_culling_zoom_mode s env
  | (_, .op_accel_toggle_restricted_mode) =>
    _lib_lighttable_key_accel_toggle_restricted_mode s
  | (env, .op_accel_exit_layout) =>
    _lib_lighttable_key_accel_exit_layout s env

/-- A sequence of operations applied in order. -/
def LTRun (s : LTState) (ops : List (LTEnv × LTOp)) : LTState :=
  ops.foldl LTStep s

/-- A concrete lighttable state for the witnesses. -/
def ltInit : LTState :=
  { d_layout := .DT_LIGHTTABLE_LAYOUT_FILEMANAGER,
    d_base_layout := .DT_LIGHTTABLE_LAYOUT_FILEMANAGER,
    d_current_zoom := 5,
    d_fullpreview_focus := false,
    d_culling_init_restriction := .DT_LIGHTTABLE_CULLING_RESTRICTION_AUTO,
    vm_fullpreview := false,
    vm_culling_restricted := .DT_LIGHTTABLE_CULLING_RESTRICTION_AUTO,
    conf_layout := .DT_LIGHTTABLE_LAYOUT_FILEMANAGER,
    conf_base_layout := .DT_LIGHTTABLE_LAYOUT_FILEMANAGER,
    conf_culling_num_images := 2,
    conf_images_in_row := 5,
    btn_filemanager_active := true,
    btn_zoomable_active := false,
    btn_culling_fix_active := false,
    btn_culling_dynamic_active := false,
    btn_preview_active := false,
    btn_restricted_active := false,
    restricted_visible := false,
    zoom_sensitive := true,
    spin_value := 5,
    tooltip_preview := "click to enter full preview layout.",
    tooltip_culling_fix := "click to enter culling layout in fixed mode.",
    tooltip_culling_dynamic := "click to enter culling layout in dynamic mode.",
    tooltip_restricted := "click to limit browsing to the selection." }

end Lighttable

/-! ### Theorems about the image loader -/

namespace ImageIoIm

/-- Pointwise effect of one fixup-loop body: the pixel's first three
channels become `(1 - black) * (1 - value)` with `black` the original
fourth channel; everything else is untouched. -/
theorem cmyk_fixup_pixel_apply (mipbuf : Nat → ℚ) (index j : Nat) :
    cmyk_fixup_pixel mipbuf index j =
      if j = index ∨ j = index + 1 ∨ j = index + 2 then
        (1 - mipbuf (index + 3)) * (1 - mipbuf j)
      else mipbuf j := by
  simp only [cmyk_fixup_pixel, Function.update_apply]
  rcases eq_or_ne j (index + 2) with h2 | h2
  · subst h2
    have hne1 : index + 2 ≠ index + 1 := by omega
    have hne0 : index + 2 ≠ index := by omega
    simp [hne1, hne0]
  · rcases eq_or_ne j (index + 1) with h1 | h1
    · subst h1
      have hne0 : index + 1 ≠ index := by omega
      simp [hne0]
    · rcases eq_or_ne j index with h0 | h0
      · subst h0
        simp [h1, h2]
      · simp [h0, h1, h2]

/-- Pointwise characterisation of the whole fixup loop run from pixel `m`
to pixel `n`: inside the processed range, channels 0, 1 and 2 of each pixel
are rewritten from the original buffer (channel 3 of the same pixel gives
`black`); every other position keeps its original value. -/
theorem cmyk_fixup_loop_char (k : Nat) :
    ∀ (mipbuf : Nat → ℚ) (m n : Nat), n - m = k → m ≤ n →
      ∀ j, cmyk_fixup_loop mipbuf (4 * m) (4 * n) j =
        if 4 * m ≤ j ∧ j < 4 * n ∧ j % 4 ≠ 3 then
          (1 - mipbuf (4 * (j / 4) + 3)) * (1 - mipbuf j)
        else mipbuf j := by
  induction k with
  | zero =>
    intro mipbuf m n hk _ j
    rw [cmyk_fixup_loop, if_neg (by omega : ¬ 4 * m < 4 * n),
      if_neg (by omega : ¬ (4 * m ≤ j ∧ j < 4 * n ∧ j % 4 ≠ 3))]
  | succ k ih =>
    intro mipbuf m n hk _ j
    have hmn : m < n := by omega
    rw [cmyk_fixup_loop, if_pos (by omega : 4 * m < 4 * n),
      (by omega : 4 * m + 4 = 4 * (m + 1)),
      ih (cmyk_fixup_pixel mipbuf (4 * m)) (m + 1) n (by omega) (by omega) j]
    by_cases hin : 4 * (m + 1) ≤ j ∧ j < 4 * n ∧ j % 4 ≠ 3
    · rw [if_pos hin]
      have hj1 : cmyk_fixup_pixel mipbuf (4 * m) j = mipbuf j := by
        rw [cmyk_fixup_pixel_apply]; exact if_neg (by omega)
      have hj2 : cmyk_fixup_pixel mipbuf (4 * m) (4 * (j / 4) + 3) =
          mipbuf (4 * (j / 4) + 3) := by
        rw [cmyk_fixup_pixel_apply]; exact if_neg (by omega)
      rw [hj1, hj2, if_pos (by omega : 4 * m ≤ j ∧ j < 4 * n ∧ j % 4 ≠ 3)]
    · rw [if_neg hin]
      by_cases hcur : 4 * m ≤ j ∧ j < 4 * (m + 1) ∧ j % 4 ≠ 3
      · have hpix : cmyk_fixup_pixel mipbuf (4 * m) j =
            (1 - mipbuf (4 * m + 3)) * (1 - mipbuf j) := by
          rw [cmyk_fixup_pixel_apply]; exact if_pos (by omega)
        rw [hpix, if_pos (by omega : 4 * m ≤ j ∧ j < 4 * n ∧ j % 4 ≠ 3),
          (by omega : 4 * (j / 4) + 3 = 4 * m + 3)]
      · have hpix : cmyk_fixup_pixel mipbuf (4 * m) j = mipbuf j := by
          rw [cmyk_fixup_pixel_apply]; exact if_neg (by omega)
        rw [hpix, if_neg (by omega : ¬ (4 * m ≤ j ∧ j < 4 * n ∧ j % 4 ≠ 3))]

/-- C1: when the library reports a CMY or CMYK colorspace and the pixel
export succeeds, `dt_imageio_open_im` rewrites each pixel of the output
buffer so that each of the first three channels `c` becomes
`(1 - k) * (1 - c)` with `k` that pixel's fourth channel, which itself stays
unchanged; for every other colorspace the exported pixel data is returned
unmodified. -/
theorem open_im_cmyk_fixup (env : MagickEnv) (img : dt_image_t)
    (filename : String)
    (hsupp : _supported_image env.have_imagemagick7 filename = true)
    (hwand : env.wand_ok = true) (hread : env.read_ok = true)
    (halloc : env.alloc_ok = true) (hexport : env.export_ok = true) :
    (dt_imageio_open_im env img filename).retval = .DT_IMAGEIO_OK ∧
    ((env.image_colorspace = ColorspaceType.CMYColorspace ∨
        env.image_colorspace = ColorspaceType.CMYKColorspace) →
      ∃ b, (dt_imageio_open_im env img filename).mipbuf = some b ∧
        ∀ p, p < env.image_width * env.image_height →
          b (4 * p) = (1 - env.export_pixels "CMYK" (4 * p + 3)) *
              (1 - env.export_pixels "CMYK" (4 * p)) ∧
          b (4 * p + 1) = (1 - env.export_pixels "CMYK" (4 * p + 3)) *
              (1 - env.export_pixels "CMYK" (4 * p + 1)) ∧
          b (4 * p + 2) = (1 - env.export_pixels "CMYK" (4 * p + 3)) *
              (1 - env.export_pixels "CMYK" (4 * p + 2)) ∧
          b (4 * p + 3) = env.export_pixels "CMYK" (4 * p + 3)) ∧
    (¬ (env.image_colorspace = ColorspaceType.CMYColorspace ∨
        env.image_colorspace = ColorspaceType.CMYKColorspace) →
      (dt_imageio_open_im env img filename).mipbuf =
        some (env.export_pixels "RGBP")) := by
  by_cases hc : env.image_colorspace = ColorspaceType.CMYColorspace ∨
      env.image_colorspace = ColorspaceType.CMYKColorspace
  · refine ⟨?_, fun _ => ?_, fun hn => absurd hc hn⟩
    · simp [dt_imageio_open_im, hsupp, hwand, hread, halloc, hexport, hc]
    · refine ⟨cmyk_fixup_loop (env.export_pixels "CMYK") 0
        (env.image_width * env.image_height * 4), ?_, ?_⟩
      · simp [dt_imageio_open_im, hsupp, hwand, hread, halloc, hexport, hc]
      · intro p hp
        have hb := cmyk_fixup_loop_char (env.image_width * env.image_height)
          (env.export_pixels "CMYK") 0 (env.image_width * env.image_height)
          (by omega) (by omega)
        simp only [Nat.mul_zero] at hb
        have hbnd : env.image_width * env.image_height * 4 =
            4 * (env.image_width * env.image_height) := by ring
        refine ⟨?_, ?_, ?_, ?_⟩
        · rw [hbnd, hb (4 * p), if_pos (by omega),
            (by omega : 4 * (4 * p / 4) + 3 = 4 * p + 3)]
        · rw [hbnd, hb (4 * p + 1), if_pos (by omega),
            (by omega : 4 * ((4 * p + 1) / 4) + 3 = 4 * p + 3)]
        · rw [hbnd, hb (4 * p + 2), if_pos (by omega),
            (by omega : 4 * ((4 * p + 2) / 4) + 3 = 4 * p + 3)]
        · rw [hbnd, hb (4 * p + 3), if_neg (by omega)]
  · refine ⟨?_, fun hcm => absurd hcm hc, fun _ => ?_⟩
    · simp [dt_imageio_open_im, hsupp, hwand, hread, halloc, hexport, hc]
    · simp [dt_imageio_open_im, hsupp, hwand, hread, halloc, hexport, hc]

end ImageIoIm

namespace ImageIoIm

/-- A filename without '.' has no extension. -/
theorem ext_after_last_dot_of_no_dot (l : List Char) (h : '.' ∉ l) :
    ext_after_last_dot l = none := by
  induction l with
  | nil => rfl
  | cons c rest ih =>
    simp only [List.mem_cons, not_or] at h
    simp only [ext_after_last_dot, ih h.2, if_neg (Ne.symm h.1)]

/-- C2 counterexample: the extension of `"a.tiffany"` does not equal a
starting segment of any whitelisted extension — so the claim, as stated,
demands `DT_IMAGEIO_LOAD_FAILED` without any library call — yet
`_supported_image` accepts it (the `g_ascii_strncasecmp(ext, w, strlen(w))`
test only requires the whitelisted entry to begin the extension), and the
loader proceeds: it invokes the library and can return `DT_IMAGEIO_OK`. -/
theorem claimC2_counterexample :
    claimC2_ext_matches true "a.tiffany" = false ∧
    _supported_image envAllOk.have_imagemagick7 "a.tiffany" = true ∧
    (dt_imageio_open_im envAllOk imgInit "a.tiffany").retval =
      .DT_IMAGEIO_OK ∧
    (dt_imageio_open_im envAllOk imgInit "a.tiffany").trace ≠ [] :=
  ⟨by decide, by decide, by decide, by decide⟩

/-- C2 (amended): for every filename whose last '.'-separated extension does
not case-insensitively start with one of the whitelisted extensions (that
is, `_supported_image` rejects it), and for every filename containing no
'.', `dt_imageio_open_im` returns `DT_IMAGEIO_LOAD_FAILED` with no library
step performed and the image record — its buffer descriptor and flags
included — unmodified. -/
theorem open_im_unsupported_rejected (env : MagickEnv) (img : dt_image_t)
    (filename : String)
    (h : _supported_image env.have_imagemagick7 filename = false ∨
         '.' ∉ filename.toList) :
    dt_imageio_open_im env img filename =
      ⟨.DT_IMAGEIO_LOAD_FAILED, img, none, []⟩ := by
  have hs : _supported_image env.have_imagemagick7 filename = false := by
    rcases h with h | h
    · exact h
    · unfold _supported_image
      rw [ext_after_last_dot_of_no_dot _ h]
  simp [dt_imageio_open_im, hs]

/-- C2 witness: a dotless filename is rejected without side effects. -/
theorem open_im_unsupported_rejected_witness :
    (_supported_image envAllOk.have_imagemagick7 "noext" = false ∨
      '.' ∉ "noext".toList) ∧
    dt_imageio_open_im envAllOk imgInit "noext" =
      ⟨.DT_IMAGEIO_LOAD_FAILED, imgInit, none, []⟩ :=
  ⟨Or.inl (by decide),
   open_im_unsupported_rejected envAllOk imgInit "noext" (Or.inl (by decide))⟩

/-- C3: on a successful run the recorded loader steps are exactly: open the
file, query width, query height, allocate the mipmap buffer, query the
colorspace, export the pixels, the CMYK fixup exactly on the CMY/CMYK
colorspaces, and the profile-copy block exactly when profile data was
obtained; and the return code is `DT_IMAGEIO_FILE_NOT_FOUND` when the read
fails, `DT_IMAGEIO_CACHE_FULL` when the allocation fails, and
`DT_IMAGEIO_LOAD_FAILED` when the export fails. -/
theorem open_im_step_order (env : MagickEnv) (img : dt_image_t)
    (filename : String)
    (hsupp : _supported_image env.have_imagemagick7 filename = true) :
    ((dt_imageio_open_im env img filename).retval = .DT_IMAGEIO_OK →
      (dt_imageio_open_im env img filename).trace =
        [.EvOpen, .EvGetWidth, .EvGetHeight, .EvAlloc,
         .EvGetColorspace, .EvExport]
          ++ (if env.image_colorspace = ColorspaceType.CMYColorspace ∨
                  env.image_colorspace = ColorspaceType.CMYKColorspace
              then [.EvCmykFixup] else [])
          ++ (if (match env.icc_profile with
                  | some d => some d
                  | none => env.icm_profile).isSome
              then [.EvCopyProfile] else [])) ∧
    (env.wand_ok = true → env.read_ok = false →
      (dt_imageio_open_im env img filename).retval =
        .DT_IMAGEIO_FILE_NOT_FOUND) ∧
    (env.wand_ok = true → env.read_ok = true → env.alloc_ok = false →
      (dt_imageio_open_im env img filename).retval =
        .DT_IMAGEIO_CACHE_FULL) ∧
    (env.wand_ok = true → env.read_ok = true → env.alloc_ok = true →
      env.export_ok = false →
      (dt_imageio_open_im env img filename).retval =
        .DT_IMAGEIO_LOAD_FAILED) := by
  refine ⟨?_, ?_, ?_, ?_⟩
  · intro hok
    by_cases hw : env.wand_ok = true
    case neg =>
      rw [Bool.not_eq_true] at hw
      simp [dt_imageio_open_im, hsupp, hw] at hok
    by_cases hr : env.read_ok = true
    case neg =>
      rw [Bool.not_eq_true] at hr
      simp [dt_imageio_open_im, hsupp, hw, hr] at hok
    by_cases ha : env.alloc_ok = true
    case neg =>
      rw [Bool.not_eq_true] at ha
      simp [dt_imageio_open_im, hsupp, hw, hr, ha] at hok
    by_cases he : env.export_ok = true
    case neg =>
      rw [Bool.not_eq_true] at he
      simp [dt_imageio_open_im, hsupp, hw, hr, ha, he] at hok
    simp [dt_imageio_open_im, hsupp, hw, hr, ha, he]
  · intro hw hr
    simp [dt_imageio_open_im, hsupp, hw, hr]
  · intro hw hr ha
    simp [dt_imageio_open_im, hsupp, hw, hr, ha]
  · intro hw hr ha he
    simp [dt_imageio_open_im, hsupp, hw, hr, ha, he]

/-- C4: a successful run leaves the image record in the internal buffer
format: library dimensions, 4 float channels, RGB buffer colorspace,
filters 0, RAW / S_RAW / HDR cleared, LDR set, loader tag `LOADER_IM`. -/
theorem open_im_success_fields (env : MagickEnv) (img : dt_image_t)
    (filename : String)
    (hok : (dt_imageio_open_im env img filename).retval = .DT_IMAGEIO_OK) :
    (dt_imageio_open_im env img filename).img.width = env.image_width ∧
    (dt_imageio_open_im env img filename).img.height = env.image_height ∧
    (dt_imageio_open_im env img filename).img.buf_dsc_channels = 4 ∧
    (dt_imageio_open_im env img filename).img.buf_dsc_datatype =
      .TYPE_FLOAT ∧
    (dt_imageio_open_im env img filename).img.buf_dsc_cst = .IOP_CS_RGB ∧
    (dt_imageio_open_im env img filename).img.buf_dsc_filters = 0 ∧
    (dt_imageio_open_im env img filename).img.flag_raw = false ∧
    (dt_imageio_open_im env img filename).img.flag_s_raw = false ∧
    (dt_imageio_open_im env img filename).img.flag_hdr = false ∧
    (dt_imageio_open_im env img filename).img.flag_ldr = true ∧
    (dt_imageio_open_im env img filename).img.loader = .LOADER_IM := by
  by_cases hs : _supported_image env.have_imagemagick7 filename = true
  case neg =>
    rw [Bool.not_eq_true] at hs
    simp [dt_imageio_open_im, hs] at hok
  by_cases hw : env.wand_ok = true
  case neg =>
    rw [Bool.not_eq_true] at hw
    simp [dt_imageio_open_im, hs, hw] at hok
  by_cases hr : env.read_ok = true
  case neg =>
    rw [Bool.not_eq_true] at hr
    simp [dt_imageio_open_im, hs, hw, hr] at hok
  by_cases ha : env.alloc_ok = true
  case neg =>
    rw [Bool.not_eq_true] at ha
    simp [dt_imageio_open_im, hs, hw, hr, ha] at hok
  by_cases he : env.export_ok = true
  case neg =>
    rw [Bool.not_eq_true] at he
    simp [dt_imageio_open_im, hs, hw, hr, ha, he] at hok
  cases hicc : env.icc_profile with
  | none =>
    cases hicm : env.icm_profile with
    | none => simp [dt_imageio_open_im, hs, hw, hr, ha, he, hicc, hicm]
    | some d =>
      rcases Bool.eq_false_or_eq_true env.malloc_ok with hm | hm <;>
        simp [dt_imageio_open_im, hs, hw, hr, ha, he, hicc, hicm, hm]
  | some d =>
    rcases Bool.eq_false_or_eq_true env.malloc_ok with hm | hm <;>
      simp [dt_imageio_open_im, hs, hw, hr, ha, he, hicc, hm]

/-- C4 witness at a successful run. -/
theorem open_im_success_fields_witness :
    (dt_imageio_open_im envAllOk imgInit "a.tiff").retval =
      .DT_IMAGEIO_OK ∧
    ((dt_imageio_open_im envAllOk imgInit "a.tiff").img.width =
      envAllOk.image_width ∧
    (dt_imageio_open_im envAllOk imgInit "a.tiff").img.height =
      envAllOk.image_height ∧
    (dt_imageio_open_im envAllOk imgInit "a.tiff").img.buf_dsc_channels = 4 ∧
    (dt_imageio_open_im envAllOk imgInit "a.tiff").img.buf_dsc_datatype =
      .TYPE_FLOAT ∧
    (dt_imageio_open_im envAllOk imgInit "a.tiff").img.buf_dsc_cst =
      .IOP_CS_RGB ∧
    (dt_imageio_open_im envAllOk imgInit "a.tiff").img.buf_dsc_filters = 0 ∧
    (dt_imageio_open_im envAllOk imgInit "a.tiff").img.flag_raw = false ∧
    (dt_imageio_open_im envAllOk imgInit "a.tiff").img.flag_s_raw = false ∧
    (dt_imageio_open_im envAllOk imgInit "a.tiff").img.flag_hdr = false ∧
    (dt_imageio_open_im envAllOk imgInit "a.tiff").img.flag_ldr = true ∧
    (dt_imageio_open_im envAllOk imgInit "a.tiff").img.loader =
      .LOADER_IM) :=
  ⟨by decide, open_im_success_fields envAllOk imgInit "a.tiff" (by decide)⟩

end ImageIoIm

namespace ImageIoIm

/-- C1 witness: a one-pixel CMYK image on a supported filename. -/
theorem open_im_cmyk_fixup_witness :
    (_supported_image envCmyk.have_imagemagick7 "a.tiff" = true ∧
     envCmyk.wand_ok = true ∧ envCmyk.read_ok = true ∧
     envCmyk.alloc_ok = true ∧ envCmyk.export_ok = true) ∧
    ((dt_imageio_open_im envCmyk imgInit "a.tiff").retval =
        .DT_IMAGEIO_OK ∧
     ((envCmyk.image_colorspace = ColorspaceType.CMYColorspace ∨
         envCmyk.image_colorspace = ColorspaceType.CMYKColorspace) →
       ∃ b, (dt_imageio_open_im envCmyk imgInit "a.tiff").mipbuf = some b ∧
         ∀ p, p < envCmyk.image_width * envCmyk.image_height →
           b (4 * p) = (1 - envCmyk.export_pixels "CMYK" (4 * p + 3)) *
               (1 - envCmyk.export_pixels "CMYK" (4 * p)) ∧
           b (4 * p + 1) = (1 - envCmyk.export_pixels "CMYK" (4 * p + 3)) *
               (1 - envCmyk.export_pixels "CMYK" (4 * p + 1)) ∧
           b (4 * p + 2) = (1 - envCmyk.export_pixels "CMYK" (4 * p + 3)) *
               (1 - envCmyk.export_pixels "CMYK" (4 * p + 2)) ∧
           b (4 * p + 3) = envCmyk.export_pixels "CMYK" (4 * p + 3)) ∧
     (¬ (envCmyk.image_colorspace = ColorspaceType.CMYColorspace ∨
         envCmyk.image_colorspace = ColorspaceType.CMYKColorspace) →
       (dt_imageio_open_im envCmyk imgInit "a.tiff").mipbuf =
         some (envCmyk.export_pixels "RGBP"))) :=
  ⟨⟨by decide, rfl, rfl, rfl, rfl⟩,
   open_im_cmyk_fixup envCmyk imgInit "a.tiff" (by decide) rfl rfl rfl rfl⟩

/-- C3 witness: on the all-succeeding oracle the success trace is the six
loader steps (no CMYK fixup, no profile data). -/
theorem open_im_step_order_witness :
    _supported_image envAllOk.have_imagemagick7 "a.tiff" = true ∧
    (((dt_imageio_open_im envAllOk imgInit "a.tiff").retval =
        .DT_IMAGEIO_OK →
      (dt_imageio_open_im envAllOk imgInit "a.tiff").trace =
        [.EvOpen, .EvGetWidth, .EvGetHeight, .EvAlloc,
         .EvGetColorspace, .EvExport]
          ++ (if envAllOk.image_colorspace = ColorspaceType.CMYColorspace ∨
                  envAllOk.image_colorspace = ColorspaceType.CMYKColorspace
              then [.EvCmykFixup] else [])
          ++ (if (match envAllOk.icc_profile with
                  | some d => some d
                  | none => envAllOk.icm_profile).isSome
              then [.EvCopyProfile] else [])) ∧
    (envAllOk.wand_ok = true → envAllOk.read_ok = false →
      (dt_imageio_open_im envAllOk imgInit "a.tiff").retval =
        .DT_IMAGEIO_FILE_NOT_FOUND) ∧
    (envAllOk.wand_ok = true → envAllOk.read_ok = true →
      envAllOk.alloc_ok = false →
      (dt_imageio_open_im envAllOk imgInit "a.tiff").retval =
        .DT_IMAGEIO_CACHE_FULL) ∧
    (envAllOk.wand_ok = true → envAllOk.read_ok = true →
      envAllOk.alloc_ok = true → envAllOk.export_ok = false →
      (dt_imageio_open_im envAllOk imgInit "a.tiff").retval =
        .DT_IMAGEIO_LOAD_FAILED)) :=
  ⟨by decide, open_im_step_order envAllOk imgInit "a.tiff" (by decide)⟩

/-- C5 counterexample: the call succeeds and the library reports an "icc"
profile, yet `img->profile` does not receive the profile bytes — the
`g_try_malloc0` allocation fails, and the assignment
`img->profile = g_try_malloc0(...)` nulls the field, so it is not left
unchanged either. -/
theorem claimC5_counterexample :
    (dt_imageio_open_im envProfileMallocFail imgOldProfile "b.pgm").retval =
      .DT_IMAGEIO_OK ∧
    envProfileMallocFail.icc_profile = some [7] ∧
    (dt_imageio_open_im envProfileMallocFail imgOldProfile
        "b.pgm").img.profile ≠ some [7] ∧
    (dt_imageio_open_im envProfileMallocFail imgOldProfile
        "b.pgm").img.profile ≠ imgOldProfile.profile ∧
    (dt_imageio_open_im envProfileMallocFail imgOldProfile
        "b.pgm").img.profile_size = imgOldProfile.profile_size :=
  ⟨by decide, by decide, by decide, by decide, by decide⟩

/-- C5 (amended): on a successful call, when the library reports an "icc"
profile, or otherwise an "icm" profile, and the `g_try_malloc0` allocation
succeeds, the profile's bytes are copied into `img->profile` and
`img->profile_size` becomes the profile's length; when the allocation fails
`img->profile` is set to null with `img->profile_size` unchanged; and when
neither profile exists both fields are left unchanged. -/
theorem open_im_profile_copy (env : MagickEnv) (img : dt_image_t)
    (filename : String)
    (hok : (dt_imageio_open_im env img filename).retval = .DT_IMAGEIO_OK) :
    (∀ d, (env.icc_profile = some d ∨
           (env.icc_profile = none ∧ env.icm_profile = some d)) →
      (env.malloc_ok = true →
        (dt_imageio_open_im env img filename).img.profile = some d ∧
        (dt_imageio_open_im env img filename).img.profile_size = d.length) ∧
      (env.malloc_ok = false →
        (dt_imageio_open_im env img filename).img.profile = none ∧
        (dt_imageio_open_im env img filename).img.profile_size =
          img.profile_size)) ∧
    (env.icc_profile = none → env.icm_profile = none →
      (dt_imageio_open_im env img filename).img.profile = img.profile ∧
      (dt_imageio_open_im env img filename).img.profile_size =
        img.profile_size) := by
  by_cases hs : _supported_image env.have_imagemagick7 filename = true
  case neg =>
    rw [Bool.not_eq_true] at hs
    simp [dt_imageio_open_im, hs] at hok
  by_cases hw : env.wand_ok = true
  case neg =>
    rw [Bool.not_eq_true] at hw
    simp [dt_imageio_open_im, hs, hw] at hok
  by_cases hr : env.read_ok = true
  case neg =>
    rw [Bool.not_eq_true] at hr
    simp [dt_imageio_open_im, hs, hw, hr] at hok
  by_cases ha : env.alloc_ok = true
  case neg =>
    rw [Bool.not_eq_true] at ha
    simp [dt_imageio_open_im, hs, hw, hr, ha] at hok
  by_cases he : env.export_ok = true
  case neg =>
    rw [Bool.not_eq_true] at he
    simp [dt_imageio_open_im, hs, hw, hr, ha, he] at hok
  refine ⟨?_, ?_⟩
  · intro d hd
    rcases hd with hd | ⟨hd, hd2⟩
    · refine ⟨fun hm => ?_, fun hm => ?_⟩
      · simp [dt_imageio_open_im, hs, hw, hr, ha, he, hd, hm]
      · cases hei : img.exif_inited <;>
          simp [dt_imageio_open_im, dt_exif_read, hs, hw, hr, ha, he, hd,
            hm, hei]
    · refine ⟨fun hm => ?_, fun hm => ?_⟩
      · simp [dt_imageio_open_im, hs, hw, hr, ha, he, hd, hd2, hm]
      · cases hei : img.exif_inited <;>
          simp [dt_imageio_open_im, dt_exif_read, hs, hw, hr, ha, he, hd,
            hd2, hm, hei]
  · intro h1 h2
    cases hei : img.exif_inited <;>
      simp [dt_imageio_open_im, dt_exif_read, hs, hw, hr, ha, he, h1, h2,
        hei]

/-- C5 witness: the "icm" fallback with a succeeding allocation. -/
theorem open_im_profile_copy_witness :
    (dt_imageio_open_im envIcmProfile imgInit "b.pgm").retval =
      .DT_IMAGEIO_OK ∧
    ((∀ d, (envIcmProfile.icc_profile = some d ∨
           (envIcmProfile.icc_profile = none ∧
            envIcmProfile.icm_profile = some d)) →
      (envIcmProfile.malloc_ok = true →
        (dt_imageio_open_im envIcmProfile imgInit "b.pgm").img.profile =
          some d ∧
        (dt_imageio_open_im envIcmProfile imgInit "b.pgm").img.profile_size =
          d.length) ∧
      (envIcmProfile.malloc_ok = false →
        (dt_imageio_open_im envIcmProfile imgInit "b.pgm").img.profile =
          none ∧
        (dt_imageio_open_im envIcmProfile imgInit "b.pgm").img.profile_size =
          imgInit.profile_size)) ∧
    (envIcmProfile.icc_profile = none → envIcmProfile.icm_profile = none →
      (dt_imageio_open_im envIcmProfile imgInit "b.pgm").img.profile =
        imgInit.profile ∧
      (dt_imageio_open_im envIcmProfile imgInit "b.pgm").img.profile_size =
        imgInit.profile_size)) :=
  ⟨by decide, open_im_profile_copy envIcmProfile imgInit "b.pgm" (by decide)⟩

end ImageIoIm

/-! ### Theorems about the lighttable tool -/

namespace Lighttable

/-- `_lib_lighttable_update_btn` does not change the stored layout. -/
theorem update_btn_d_layout (s : LTState) :
    (_lib_lighttable_update_btn s).d_layout = s.d_layout := by
  simp [_lib_lighttable_update_btn, apply_ite LTState.d_layout]

/-- `_lib_lighttable_update_btn` does not change the base layout. -/
theorem update_btn_d_base_layout (s : LTState) :
    (_lib_lighttable_update_btn s).d_base_layout = s.d_base_layout := by
  simp [_lib_lighttable_update_btn, apply_ite LTState.d_base_layout]

/-- `_lib_lighttable_update_btn` does not change the current zoom. -/
theorem update_btn_d_current_zoom (s : LTState) :
    (_lib_lighttable_update_btn s).d_current_zoom = s.d_current_zoom := by
  simp [_lib_lighttable_update_btn, apply_ite LTState.d_current_zoom]

/-- `_lib_lighttable_update_btn` does not change the view-manager
full-preview flag. -/
theorem update_btn_vm_fullpreview (s : LTState) :
    (_lib_lighttable_update_btn s).vm_fullpreview = s.vm_fullpreview := by
  simp [_lib_lighttable_update_btn, apply_ite LTState.vm_fullpreview]

/-- `_lib_lighttable_update_btn` does not change the persisted layout. -/
theorem update_btn_conf_layout (s : LTState) :
    (_lib_lighttable_update_btn s).conf_layout = s.conf_layout := by
  simp [_lib_lighttable_update_btn, apply_ite LTState.conf_layout]

/-- `_lib_lighttable_update_btn` does not change the persisted base
layout. -/
theorem update_btn_conf_base_layout (s : LTState) :
    (_lib_lighttable_update_btn s).conf_base_layout = s.conf_base_layout := by
  simp [_lib_lighttable_update_btn, apply_ite LTState.conf_base_layout]

/-- `_lib_lighttable_update_btn` does not change the persisted culling
image count. -/
theorem update_btn_conf_culling_num_images (s : LTState) :
    (_lib_lighttable_update_btn s).conf_culling_num_images =
      s.conf_culling_num_images := by
  simp [_lib_lighttable_update_btn, apply_ite LTState.conf_culling_num_images]

/-- `_lib_lighttable_update_btn` does not change the persisted row count. -/
theorem update_btn_conf_images_in_row (s : LTState) :
    (_lib_lighttable_update_btn s).conf_images_in_row =
      s.conf_images_in_row := by
  simp [_lib_lighttable_update_btn, apply_ite LTState.conf_images_in_row]

/-- C6: after `_lib_lighttable_update_btn`, exactly one of the five layout
toggle buttons is active, and it mirrors the view-manager state: the
preview button when full preview is on, otherwise the button of the current
layout (culling-dynamic, culling-fixed, or zoomable), the filemanager
button for every other layout. -/
theorem update_btn_exactly_one_active (s : LTState) :
    ([(_lib_lighttable_update_btn s).btn_filemanager_active,
      (_lib_lighttable_update_btn s).btn_zoomable_active,
      (_lib_lighttable_update_btn s).btn_culling_fix_active,
      (_lib_lighttable_update_btn s).btn_culling_dynamic_active,
      (_lib_lighttable_update_btn s).btn_preview_active].count true = 1) ∧
    (s.vm_fullpreview = true →
      (_lib_lighttable_update_btn s).btn_preview_active = true) ∧
    (s.vm_fullpreview = false →
      (((_lib_lighttable_update_btn s).btn_culling_dynamic_active = true) ↔
        s.d_layout = .DT_LIGHTTABLE_LAYOUT_CULLING_DYNAMIC) ∧
      (((_lib_lighttable_update_btn s).btn_culling_fix_active = true) ↔
        s.d_layout = .DT_LIGHTTABLE_LAYOUT_CULLING) ∧
      (((_lib_lighttable_update_btn s).btn_zoomable_active = true) ↔
        s.d_layout = .DT_LIGHTTABLE_LAYOUT_ZOOMABLE) ∧
      (((_lib_lighttable_update_btn s).btn_filemanager_active = true) ↔
        (s.d_layout ≠ .DT_LIGHTTABLE_LAYOUT_CULLING_DYNAMIC ∧
         s.d_layout ≠ .DT_LIGHTTABLE_LAYOUT_CULLING ∧
         s.d_layout ≠ .DT_LIGHTTABLE_LAYOUT_ZOOMABLE))) := by
  cases hfp : s.vm_fullpreview <;> cases hl : s.d_layout <;>
    simp [_lib_lighttable_update_btn, dt_view_lighttable_preview_state,
      dt_view_lighttable_culling_restricted_state, hfp, hl,
      apply_ite LTState.btn_filemanager_active,
      apply_ite LTState.btn_zoomable_active,
      apply_ite LTState.btn_culling_fix_active,
      apply_ite LTState.btn_culling_dynamic_active,
      apply_ite LTState.btn_preview_active]

end Lighttable

namespace Lighttable

/-- C7: both scripting accessors return the value read before any
assignment of the same call: with an argument they run the setter and still
return the old value (for the zoom the new value is really stored), with no
argument they return the current value and leave the state unchanged. -/
theorem lua_accessors_return_old_value (s : LTState) (env : LTEnv)
    (v : dt_lighttable_layout_t) (z : Int) :
    (layout_cb s env (some v)).1 = _lib_lighttable_get_layout s ∧
    (layout_cb s env (some v)).2 = _lib_lighttable_set_layout s env v ∧
    layout_cb s env none = (_lib_lighttable_get_layout s, s) ∧
    (zoom_level_cb s (some z)).1 = _lib_lighttable_get_zoom s ∧
    (zoom_level_cb s (some z)).2 = _lib_lighttable_set_zoom s z ∧
    _lib_lighttable_get_zoom (zoom_level_cb s (some z)).2 = z ∧
    zoom_level_cb s none = (_lib_lighttable_get_zoom s, s) :=
  ⟨rfl, rfl, rfl, rfl, rfl, rfl, rfl⟩

/-- C8: calling `_lib_lighttable_set_layout` with the preview layout leaves
the stored layout, the base layout, the current zoom and every persisted
configuration value unchanged; the whole effect is the view-manager
full-preview flag becoming set and the button display refreshing. -/
theorem set_layout_preview_frame (s : LTState) (env : LTEnv) :
    _lib_lighttable_set_layout s env .DT_LIGHTTABLE_LAYOUT_PREVIEW =
      _lib_lighttable_update_btn { s with vm_fullpreview := true } ∧
    (_lib_lighttable_set_layout s env
      .DT_LIGHTTABLE_LAYOUT_PREVIEW).d_layout = s.d_layout ∧
    (_lib_lighttable_set_layout s env
      .DT_LIGHTTABLE_LAYOUT_PREVIEW).d_base_layout = s.d_base_layout ∧
    (_lib_lighttable_set_layout s env
      .DT_LIGHTTABLE_LAYOUT_PREVIEW).d_current_zoom = s.d_current_zoom ∧
    (_lib_lighttable_set_layout s env
      .DT_LIGHTTABLE_LAYOUT_PREVIEW).conf_layout = s.conf_layout ∧
    (_lib_lighttable_set_layout s env
      .DT_LIGHTTABLE_LAYOUT_PREVIEW).conf_base_layout = s.conf_base_layout ∧
    (_lib_lighttable_set_layout s env
      .DT_LIGHTTABLE_LAYOUT_PREVIEW).conf_culling_num_images =
        s.conf_culling_num_images ∧
    (_lib_lighttable_set_layout s env
      .DT_LIGHTTABLE_LAYOUT_PREVIEW).conf_images_in_row =
        s.conf_images_in_row ∧
    (_lib_lighttable_set_layout s env
      .DT_LIGHTTABLE_LAYOUT_PREVIEW).vm_fullpreview = true := by
  have hkey : _lib_lighttable_set_layout s env
      .DT_LIGHTTABLE_LAYOUT_PREVIEW =
      _lib_lighttable_update_btn { s with vm_fullpreview := true } := by
    unfold _lib_lighttable_set_layout
    cases hfp : s.vm_fullpreview
    · simp [dt_view_lighttable_preview_state,
        dt_view_lighttable_set_preview_state, hfp]
    · have heta : ({ s with vm_fullpreview := true } : LTState) = s := by
        rw [← hfp]
      simp [dt_view_lighttable_preview_state, hfp, heta]
  refine ⟨hkey, ?_, ?_, ?_, ?_, ?_, ?_, ?_, ?_⟩
  · rw [hkey, update_btn_d_layout]
  · rw [hkey, update_btn_d_base_layout]
  · rw [hkey, update_btn_d_current_zoom]
  · rw [hkey, update_btn_conf_layout]
  · rw [hkey, update_btn_conf_base_layout]
  · rw [hkey, update_btn_conf_culling_num_images]
  · rw [hkey, update_btn_conf_images_in_row]
  · rw [hkey, update_btn_vm_fullpreview]

/-- `_lib_lighttable_set_layout` either keeps the base layout or assigns it
the new layout, the latter only for the filemanager and zoomable layouts. -/
theorem set_layout_d_base_layout (s : LTState) (env : LTEnv)
    (layout : dt_lighttable_layout_t) :
    (_lib_lighttable_set_layout s env layout).d_base_layout =
      s.d_base_layout ∨
    ((_lib_lighttable_set_layout s env layout).d_base_layout = layout ∧
     (layout = .DT_LIGHTTABLE_LAYOUT_FILEMANAGER ∨
      layout = .DT_LIGHTTABLE_LAYOUT_ZOOMABLE)) := by
  by_cases hp : layout = dt_lighttable_layout_t.DT_LIGHTTABLE_LAYOUT_PREVIEW
  · left
    simp [_lib_lighttable_set_layout, hp, update_btn_d_base_layout,
      dt_view_lighttable_set_preview_state, dt_view_lighttable_preview_state,
      apply_ite LTState.d_base_layout]
  · by_cases hcur : s.conf_layout = layout
    · left
      simp [_lib_lighttable_set_layout, hp, hcur, update_btn_d_base_layout,
        dt_view_lighttable_set_preview_state,
        dt_view_lighttable_preview_state,
        apply_ite LTState.d_base_layout, apply_ite LTState.conf_layout]
    · by_cases hfz : layout =
          dt_lighttable_layout_t.DT_LIGHTTABLE_LAYOUT_FILEMANAGER ∨
          layout = dt_lighttable_layout_t.DT_LIGHTTABLE_LAYOUT_ZOOMABLE
      · refine Or.inr ⟨?_, hfz⟩
        simp [_lib_lighttable_set_layout, hp, hcur, hfz,
          update_btn_d_base_layout, dt_view_lighttable_set_preview_state,
          dt_view_lighttable_preview_state,
          apply_ite LTState.d_base_layout, apply_ite LTState.conf_layout]
      · left
        simp [_lib_lighttable_set_layout, hp, hcur, hfz,
          update_btn_d_base_layout, dt_view_lighttable_set_preview_state,
          dt_view_lighttable_preview_state,
          apply_ite LTState.d_base_layout, apply_ite LTState.conf_layout]

/-- `_lib_lighttable_set_layout` keeps the base layout in the set of
filemanager and zoomable layouts. -/
theorem set_layout_preserves_base (s : LTState) (env : LTEnv)
    (layout : dt_lighttable_layout_t)
    (h : s.d_base_layout = .DT_LIGHTTABLE_LAYOUT_FILEMANAGER ∨
         s.d_base_layout = .DT_LIGHTTABLE_LAYOUT_ZOOMABLE) :
    (_lib_lighttable_set_layout s env layout).d_base_layout =
      .DT_LIGHTTABLE_LAYOUT_FILEMANAGER ∨
    (_lib_lighttable_set_layout s env layout).d_base_layout =
      .DT_LIGHTTABLE_LAYOUT_ZOOMABLE := by
  rcases set_layout_d_base_layout s env layout with hb | ⟨hb, hfz⟩
  · rw [hb]; exact h
  · rw [hb]; exact hfz

/-- Every operation of `LTOp` keeps the base layout in the set of
filemanager and zoomable layouts. -/
theorem step_preserves_base (s : LTState) (p : LTEnv × LTOp)
    (h : s.d_base_layout = .DT_LIGHTTABLE_LAYOUT_FILEMANAGER ∨
         s.d_base_layout = .DT_LIGHTTABLE_LAYOUT_ZOOMABLE) :
    (LTStep s p).d_base_layout = .DT_LIGHTTABLE_LAYOUT_FILEMANAGER ∨
    (LTStep s p).d_base_layout = .DT_LIGHTTABLE_LAYOUT_ZOOMABLE := by
  obtain ⟨env, op⟩ := p
  cases op with
  | op_set_layout l => exact set_layout_preserves_base s env l h
  | op_layout_btn_release w ctrl =>
    show (_lib_lighttable_layout_btn_release s env w ctrl).d_base_layout =
        _ ∨ (_lib_lighttable_layout_btn_release s env w ctrl).d_base_layout =
        _
    unfold _lib_lighttable_layout_btn_release
    dsimp only
    split
    · cases w <;> exact set_layout_preserves_base _ env _ h
    · cases w <;>
        first
          | exact set_layout_preserves_base _ env _ h
          | exact h
  | op_restricted_btn_release =>
    show (_lib_lighttable_restricted_btn_release s).d_base_layout = _ ∨
        (_lib_lighttable_restricted_btn_release s).d_base_layout = _
    unfold _lib_lighttable_restricted_btn_release
    dsimp only
    rw [update_btn_d_base_layout]
    exact h
  | op_accel_toggle_filemanager =>
    exact set_layout_preserves_base _ env _ h
  | op_accel_toggle_zoomable =>
    exact set_layout_preserves_base _ env _ h
  | op_accel_toggle_culling_dynamic_mode =>
    show (_lib_lighttable_key_accel_toggle_culling_dynamic_mode
        s env).d_base_layout = _ ∨
      (_lib_lighttable_key_accel_toggle_culling_dynamic_mode
        s env).d_base_layout = _
    unfold _lib_lighttable_key_accel_toggle_culling_dynamic_mode
    split
    · exact set_layout_preserves_base _ env _ h
    · exact set_layout_preserves_base _ env _ h
  | op_accel_toggle_culling_zoom_mode =>
    show (_lib_lighttable_key_accel_toggle_culling_zoom_mode
        s env).d_base_layout = _ ∨
      (_lib_lighttable_key_accel_toggle_culling_zoom_mode
        s env).d_base_layout = _
    unfold _lib_lighttable_key_accel_toggle_culling_zoom_mode
    dsimp only
    split
    · exact set_layout_preserves_base _ env _ h
    · split
      · exact set_layout_preserves_base _ env _ h
      · exact h
  | op_accel_toggle_restricted_mode =>
    show (_lib_lighttable_key_accel_toggle_restricted_mode
        s).d_base_layout = _ ∨
      (_lib_lighttable_key_accel_toggle_restricted_mode s).d_base_layout = _
    unfold _lib_lighttable_key_accel_toggle_restricted_mode
      _lib_lighttable_restricted_btn_release
    dsimp only
    split
    · rw [update_btn_d_base_layout]; exact h
    · exact h
  | op_accel_exit_layout =>
    show (_lib_lighttable_key_accel_exit_layout s env).d_base_layout = _ ∨
      (_lib_lighttable_key_accel_exit_layout s env).d_base_layout = _
    unfold _lib_lighttable_key_accel_exit_layout
    split
    · exact set_layout_preserves_base _ env _ h
    · split
      · exact set_layout_preserves_base _ env _ h
      · exact h

/-- Any sequence of operations keeps the base layout in the set of
filemanager and zoomable layouts. -/
theorem run_preserves_base (ops : List (LTEnv × LTOp)) (s : LTState)
    (h : s.d_base_layout = .DT_LIGHTTABLE_LAYOUT_FILEMANAGER ∨
         s.d_base_layout = .DT_LIGHTTABLE_LAYOUT_ZOOMABLE) :
    (LTRun s ops).d_base_layout = .DT_LIGHTTABLE_LAYOUT_FILEMANAGER ∨
    (LTRun s ops).d_base_layout = .DT_LIGHTTABLE_LAYOUT_ZOOMABLE := by
  induction ops generalizing s with
  | nil => exact h
  | cons p rest ih => exact ih (LTStep s p) (step_preserves_base s p h)

/-- C9: `_lib_lighttable_set_layout` writes the base layout only when the
new layout is filemanager or zoomable; hence, starting from a filemanager
or zoomable base layout, any sequence of set-layout, button-release and
key-accelerator operations keeps the base layout one of those two values
(so leaving a culling or preview layout always lands on a filemanager or
zoomable layout). -/
theorem base_layout_invariant (s : LTState)
    (h : s.d_base_layout = .DT_LIGHTTABLE_LAYOUT_FILEMANAGER ∨
         s.d_base_layout = .DT_LIGHTTABLE_LAYOUT_ZOOMABLE) :
    (∀ (env : LTEnv) (layout : dt_lighttable_layout_t),
       layout ≠ .DT_LIGHTTABLE_LAYOUT_FILEMANAGER →
       layout ≠ .DT_LIGHTTABLE_LAYOUT_ZOOMABLE →
       (_lib_lighttable_set_layout s env layout).d_base_layout =
         s.d_base_layout) ∧
    (∀ ops : List (LTEnv × LTOp),
       (LTRun s ops).d_base_layout = .DT_LIGHTTABLE_LAYOUT_FILEMANAGER ∨
       (LTRun s ops).d_base_layout = .DT_LIGHTTABLE_LAYOUT_ZOOMABLE) := by
  refine ⟨fun env layout h1 h2 => ?_,
    fun ops => run_preserves_base ops s h⟩
  rcases set_layout_d_base_layout s env layout with hb | ⟨_, hfz⟩
  · exact hb
  · rcases hfz with hf | hf
    · exact absurd hf h1
    · exact absurd hf h2

/-- C9 witness: a concrete state with a filemanager base layout, run
through a concrete operation sequence. -/
theorem base_layout_invariant_witness :
    (ltInit.d_base_layout = .DT_LIGHTTABLE_LAYOUT_FILEMANAGER ∨
     ltInit.d_base_layout = .DT_LIGHTTABLE_LAYOUT_ZOOMABLE) ∧
    ((∀ (env : LTEnv) (layout : dt_lighttable_layout_t),
       layout ≠ .DT_LIGHTTABLE_LAYOUT_FILEMANAGER →
       layout ≠ .DT_LIGHTTABLE_LAYOUT_ZOOMABLE →
       (_lib_lighttable_set_layout ltInit env layout).d_base_layout =
         ltInit.d_base_layout) ∧
    (∀ ops : List (LTEnv × LTOp),
       (LTRun ltInit ops).d_base_layout =
         .DT_LIGHTTABLE_LAYOUT_FILEMANAGER ∨
       (LTRun ltInit ops).d_base_layout =
         .DT_LIGHTTABLE_LAYOUT_ZOOMABLE)) :=
  ⟨Or.inl rfl, base_layout_invariant ltInit (Or.inl rfl)⟩

/-- C10: setting the zoom through the proxy and reading it back returns
exactly the value that was set. -/
theorem zoom_set_get_roundtrip (s : LTState) (z : Int) :
    _lib_lighttable_get_zoom (_lib_lighttable_set_zoom s z) = z := rfl

end Lighttable
